import Mathlib

/-!
Verification of the desktop-to-backend process bridge of the
real-estate-tracker repository (files
`desktop/src-tauri/src/commands.rs` and `desktop/src-tauri/src/python.rs`).

The bridge has four parts, and each is embedded below from the source:
* the command builders of `commands.rs` (pure argument-vector construction);
* the interpreter resolver `get_python_path` of `python.rs`, embedded as a
  function of an explicit environment `PyEnv` that records which interpreter
  candidates exist on disk and which verify, together with a trace of the
  verification subprocesses it spawns;
* the process executor `execute_python_command`, which classifies the
  subprocess outcome by exit status;
* the output interpreter `execute_python_json_command`, which scans stdout
  line by line for the first decodable JSON-shaped line.

Machine floats (`f64`) appear in the source only as values carried from the
caller into a decimal string (`to_string`) and in one comparison with `0.0`.
They are embedded as rationals; `rustF64Display` renders the terminating
decimal expansion with no fractional part for integers and no grouping
separators, which agrees with Rust's `Display` for the exact decimal values
the bridge passes through.
-/

/-- Decimal digits of the fractional part of the fraction `r / d`
(`r < d`), produced by long division, stopping when the remainder is zero
(so no trailing zeros are ever printed). `fuel` bounds the number of
digits; every value originating from an `f64` has a terminating decimal
expansion well below the fuel used. -/
def fracDigits : Nat → Nat → Nat → String
  | 0, _, _ => ""
  | fuel + 1, r, d =>
    if r = 0 then ""
    else Nat.repr (r * 10 / d) ++ fracDigits fuel (r * 10 % d) d

/-- Model of Rust's `f64::to_string` (the `Display` implementation) on the
exact decimal values the bridge forwards: minus sign for negatives, the
integer part in plain decimal (no grouping separators), and a fractional
part only when it is nonzero. -/
def rustF64Display (q : ℚ) : String :=
  let n := q.num.natAbs
  let d := q.den
  let sign := if q.num < 0 then "-" else ""
  let frac := if n % d = 0 then "" else "." ++ fracDigits 1200 (n % d) d
  sign ++ Nat.repr (n / d) ++ frac

/-- Model of Rust's `str::trim`: remove whitespace from both ends (the
payloads considered are ASCII, where Rust's Unicode whitespace set and
`Char.isWhitespace` agree). -/
def rustTrim (s : String) : String :=
  String.mk
    (((s.data.dropWhile Char.isWhitespace).reverse.dropWhile
        Char.isWhitespace).reverse)

/-- Request payload of `create_project` (struct `ProjectData` in
`commands.rs`): required name, budget, property type and class, and four
optional fields. -/
structure ProjectData where
  name : String
  budget : ℚ
  property_type : String
  property_class : String
  description : Option String
  floors : Option Nat
  sqft : Option ℚ
  address : Option String

/-- Request payload of `update_project` (struct `UpdateProjectData`):
every field is optional. -/
structure UpdateProjectData where
  name : Option String
  budget : Option ℚ
  description : Option String
  floors : Option Nat
  sqft : Option ℚ
  address : Option String

/-- Request payload of `add_expense` (struct `ExpenseData`). -/
structure ExpenseData where
  room_name : String
  category : String
  cost : ℚ
  hours : Option ℚ
  condition : Option Nat
  notes : Option String

/-- Argument vector built by `create_project` (commands.rs lines 108-164).
The source stages the rendered numeric values in a `temp_strings` buffer and
then appends the flag/value pairs; the net token order is: the four required
positionals, then `--description`, `--floors`, `--sqft`, `--address`, each
pair present exactly when its field is `Some`. -/
def createProjectArgs (d : ProjectData) : List String :=
  ["project", "create", d.name, rustF64Display d.budget,
    d.property_type, d.property_class]
  ++ (match d.description with
      | some s => ["--description", s]
      | none => [])
  ++ (match d.floors with
      | some f => ["--floors", Nat.repr f]
      | none => [])
  ++ (match d.sqft with
      | some q => ["--sqft", rustF64Display q]
      | none => [])
  ++ (match d.address with
      | some a => ["--address", a]
      | none => [])

/-- Argument vector built by `update_project` (commands.rs lines 168-240).
In the source, `--name` is pushed first; the budget string is staged in
`temp_strings` while `--description` is pushed inline; the staged
`--budget`, `--floors`, `--sqft` pairs are appended afterwards, then
`--address`.  The emitted pair order is therefore: name, description,
budget, floors, sqft, address. -/
def updateProjectArgs (projectId : Nat) (d : UpdateProjectData) : List String :=
  ["project", "update", Nat.repr projectId]
  ++ (match d.name with
      | some n => ["--name", n]
      | none => [])
  ++ (match d.description with
      | some s => ["--description", s]
      | none => [])
  ++ (match d.budget with
      | some b => ["--budget", rustF64Display b]
      | none => [])
  ++ (match d.floors with
      | some f => ["--floors", Nat.repr f]
      | none => [])
  ++ (match d.sqft with
      | some q => ["--sqft", rustF64Display q]
      | none => [])
  ++ (match d.address with
      | some a => ["--address", a]
      | none => [])

/-- Argument vector built by `add_expense` (commands.rs lines 381-446):
positionals project id, room name, category, cost; then `--hours` only when
`hours` is present and strictly greater than zero, `--condition` when
present, and `--notes` only when present and not blank after trimming. -/
def addExpenseArgs (projectId : Nat) (d : ExpenseData) : List String :=
  ["expense", "add", Nat.repr projectId, d.room_name, d.category,
    rustF64Display d.cost]
  ++ (match d.hours with
      | some h => if 0 < h then ["--hours", rustF64Display h] else []
      | none => [])
  ++ (match d.condition with
      | some c => ["--condition", Nat.repr c]
      | none => [])
  ++ (match d.notes with
      | some s => if rustTrim s = "" then [] else ["--notes", s]
      | none => [])

/-- Argument vector built by `delete_project` (commands.rs lines 244-255). -/
def deleteProjectArgs (projectId : Nat) : List String :=
  ["project", "delete", Nat.repr projectId, "--force"]

/-- Argument vector built by `delete_room` (commands.rs lines 351-362). -/
def deleteRoomArgs (projectId : Nat) (roomName : String) : List String :=
  ["room", "delete", Nat.repr projectId, roomName, "--force"]

/-- Argument vector built by `delete_expense` (commands.rs lines 450-461). -/
def deleteExpenseArgs (expenseId : Nat) : List String :=
  ["expense", "delete", Nat.repr expenseId, "--force"]

/-- Flags of a flat list of alternating flag/value pairs: the elements at
even positions. The optional-flag section of every argument vector built
above is such a list, so a field's flag token appears here exactly when its
pair was emitted, and value tokens (odd positions) are never mistaken for
flags. -/
def emittedFlags : List String → List String
  | [] => []
  | [x] => [x]
  | x :: _ :: rest => x :: emittedFlags rest

/-- Subsequence test: `isSubseqOf l s` is true when the elements of `l`
occur in `s` in the same relative order. -/
def isSubseqOf : List String → List String → Bool
  | [], _ => true
  | _ :: _, [] => false
  | a :: l, b :: s => if a = b then isSubseqOf l s else isSubseqOf (a :: l) s

/-- JSON values as decoded by `serde_json` in `execute_python_json_command`
(numbers restricted to integers, which covers every payload this
development evaluates). -/
inductive Json where
  | null
  | bool (b : Bool)
  | num (n : Int)
  | str (s : String)
  | arr (items : List Json)
  | obj (fields : List (String × Json))

/-- Whitespace characters accepted between JSON tokens. -/
def jsonWs (c : Char) : Bool :=
  c = ' ' || c = '\t' || c = '\n' || c = '\r'

/-- Drop leading JSON whitespace. -/
def skipWs (cs : List Char) : List Char :=
  cs.dropWhile jsonWs

/-- Numeric value of a hexadecimal digit. -/
def hexDigitVal (c : Char) : Option Nat :=
  if c.isDigit then some (c.toNat - '0'.toNat)
  else if 'a' ≤ c ∧ c ≤ 'f' then some (c.toNat - 'a'.toNat + 10)
  else if 'A' ≤ c ∧ c ≤ 'F' then some (c.toNat - 'A'.toNat + 10)
  else none

/-- Numeric value of a digit string. -/
def digitsToNat (ds : List Char) : Nat :=
  ds.foldl (fun a c => a * 10 + (c.toNat - '0'.toNat)) 0

/-- Body of a JSON string after the opening quote: consume characters and
escapes up to the closing quote, returning the decoded text and the rest of
the input. -/
def parseStringBody (acc : List Char) : List Char → Option (String × List Char)
  | [] => none
  | '"' :: rest => some (String.mk acc.reverse, rest)
  | '\\' :: 'u' :: a :: b :: c :: d :: rest =>
    match hexDigitVal a, hexDigitVal b, hexDigitVal c, hexDigitVal d with
    | some x, some y, some z, some w =>
      parseStringBody (Char.ofNat (((x * 16 + y) * 16 + z) * 16 + w) :: acc) rest
    | _, _, _, _ => none
  | '\\' :: e :: rest =>
    match e with
    | '"' => parseStringBody ('"' :: acc) rest
    | '\\' => parseStringBody ('\\' :: acc) rest
    | '/' => parseStringBody ('/' :: acc) rest
    | 'n' => parseStringBody ('\n' :: acc) rest
    | 't' => parseStringBody ('\t' :: acc) rest
    | 'r' => parseStringBody ('\r' :: acc) rest
    | 'b' => parseStringBody (Char.ofNat 8 :: acc) rest
    | 'f' => parseStringBody (Char.ofNat 12 :: acc) rest
    | _ => none
  | c :: rest =>
    if c.toNat < 32 then none else parseStringBody (c :: acc) rest

/-- Unsigned JSON integer token: one or more digits, no redundant leading
zero, and not followed by a fraction or exponent (this development only
decodes integer numbers). -/
def parseNatTok (cs : List Char) : Option (Nat × List Char) :=
  let ds := cs.takeWhile Char.isDigit
  let rest := cs.drop ds.length
  if ds.isEmpty then none
  else if ds.length > 1 && ds.headD ' ' = '0' then none
  else
    match rest with
    | c :: _ =>
      if c = '.' || c = 'e' || c = 'E' then none else some (digitsToNat ds, rest)
    | [] => some (digitsToNat ds, rest)

mutual

/-- Recursive-descent JSON value parser over a character list, with fuel. -/
def parseValue : Nat → List Char → Option (Json × List Char)
  | 0, _ => none
  | fuel + 1, cs =>
    match skipWs cs with
    | 'n' :: 'u' :: 'l' :: 'l' :: rest => some (Json.null, rest)
    | 't' :: 'r' :: 'u' :: 'e' :: rest => some (Json.bool true, rest)
    | 'f' :: 'a' :: 'l' :: 's' :: 'e' :: rest => some (Json.bool false, rest)
    | '"' :: rest =>
      match parseStringBody [] rest with
      | some (s, rest2) => some (Json.str s, rest2)
      | none => none
    | '-' :: rest =>
      match parseNatTok rest with
      | some (n, rest2) => some (Json.num (-(n : Int)), rest2)
      | none => none
    | '[' :: rest =>
      match skipWs rest with
      | ']' :: rest2 => some (Json.arr [], rest2)
      | _ =>
        match parseItems fuel rest with
        | some (xs, rest2) => some (Json.arr xs, rest2)
        | none => none
    | '\x7b' :: rest =>
      match skipWs rest with
      | '\x7d' :: rest2 => some (Json.obj [], rest2)
      | _ =>
        match parseFields fuel rest with
        | some (fs, rest2) => some (Json.obj fs, rest2)
        | none => none
    | c :: rest =>
      if c.isDigit then
        match parseNatTok (c :: rest) with
        | some (n, rest2) => some (Json.num (n : Int), rest2)
        | none => none
      else none
    | [] => none

/-- Comma-separated JSON array items, terminated by a closing bracket. -/
def parseItems : Nat → List Char → Option (List Json × List Char)
  | 0, _ => none
  | fuel + 1, cs =>
    match parseValue fuel cs with
    | some (v, rest) =>
      match skipWs rest with
      | ',' :: rest2 =>
        match parseItems fuel rest2 with
        | some (xs, rest3) => some (v :: xs, rest3)
        | none => none
      | ']' :: rest2 => some ([v], rest2)
      | _ => none
    | none => none

/-- Comma-separated JSON object members, terminated by a closing brace. -/
def parseFields : Nat → List Char → Option (List (String × Json) × List Char)
  | 0, _ => none
  | fuel + 1, cs =>
    match skipWs cs with
    | '"' :: rest =>
      match parseStringBody [] rest with
      | some (k, rest2) =>
        match skipWs rest2 with
        | ':' :: rest3 =>
          match parseValue fuel rest3 with
          | some (v, rest4) =>
            match skipWs rest4 with
            | ',' :: rest5 =>
              match parseFields fuel rest5 with
              | some (fs, rest6) => some ((k, v) :: fs, rest6)
              | none => none
            | '\x7d' :: rest5 => some ([(k, v)], rest5)
            | _ => none
          | none => none
        | _ => none
      | none => none
    | _ => none

end

/-- Model of `serde_json::from_str`: parse one JSON value and require that
only whitespace remains. -/
def Json.parse (s : String) : Option Json :=
  match parseValue (s.length * 2 + 2) s.data with
  | some (v, rest) => if (skipWs rest).isEmpty then some v else none
  | none => none

/-- Observable side effects of one bridge call: `probe` records one
interpreter-verification subprocess (`<candidate> --version`), `spawn`
records the single backend subprocess (`<interpreter> -m src.cli <args>`),
and `built` records that an argument vector was constructed by the calling
command. -/
inductive PyEvent where
  | probe (cand : String)
  | spawn (python : String) (args : List String)
  | built (args : List String)
deriving DecidableEq

/-- Whether an event is the backend subprocess spawn. -/
def PyEvent.isSpawn : PyEvent → Bool
  | PyEvent.spawn _ _ => true
  | _ => false

/-- Environment observed by `get_python_path` and `execute_python_command`
(python.rs): the current directory, whether each bundled-venv candidate
exists on disk and whether its version probe succeeds, whether each
system-named executable's version probe succeeds, and the outcome (exit
code, stdout, stderr) of running the backend with a given interpreter and
argument vector. -/
structure PyEnv where
  cd : String
  winVenvExists : Bool
  winVenvVerifies : Bool
  unixVenvExists : Bool
  unixVenvVerifies : Bool
  sysVerifies : String → Bool
  run : String → List String → Nat × String × String

/-- Windows-style bundled interpreter path
(`<cd>/../../backend/venv/Scripts/python.exe`, python.rs line 106). -/
def winVenvPath (e : PyEnv) : String :=
  e.cd ++ "/../../backend/venv/Scripts/python.exe"

/-- Unix-style bundled interpreter path
(`<cd>/../../backend/venv/bin/python`, python.rs line 120). -/
def unixVenvPath (e : PyEnv) : String :=
  e.cd ++ "/../../backend/venv/bin/python"

/-- Verification subprocesses spawned while examining the Windows-style
bundled candidate: one probe when the file exists, none otherwise. -/
def winProbes (e : PyEnv) : List PyEvent :=
  if e.winVenvExists then [PyEvent.probe (winVenvPath e)] else []

/-- Verification subprocesses spawned while examining the Unix-style
bundled candidate. -/
def unixProbes (e : PyEnv) : List PyEvent :=
  if e.unixVenvExists then [PyEvent.probe (unixVenvPath e)] else []

/-- System executable names tried as a fallback, in source order
(python.rs line 134). -/
def sysPythonNames : List String :=
  ["python", "python3", "py"]

/-- Fallback loop of `get_python_path` over the system executable names:
each name is probed in turn and the first verifying name is returned with
no later name probed. -/
def sysScan (e : PyEnv) : List String → Except String String × List PyEvent
  | [] => (Except.error "Python not found in PATH or virtual environment", [])
  | n :: ns =>
    if e.sysVerifies n then (Except.ok n, [PyEvent.probe n])
    else ((sysScan e ns).1, PyEvent.probe n :: (sysScan e ns).2)

/-- Interpreter resolution, `get_python_path` (python.rs lines 99-150):
the Windows-style bundled path is examined first, then the Unix-style
bundled path, then the system names; a bundled candidate is probed only
when it exists on disk, and resolution returns at the first verifying
candidate. -/
def getPythonPath (e : PyEnv) : Except String String × List PyEvent :=
  if e.winVenvExists && e.winVenvVerifies then
    (Except.ok (winVenvPath e), winProbes e)
  else if e.unixVenvExists && e.unixVenvVerifies then
    (Except.ok (unixVenvPath e), winProbes e ++ unixProbes e)
  else
    ((sysScan e sysPythonNames).1,
     winProbes e ++ unixProbes e ++ (sysScan e sysPythonNames).2)

/-- Apply a function to the message of a failure, as the `map_err` calls in
`commands.rs` do. -/
def mapErr {α : Type} (f : String → String) : Except String α → Except String α
  | Except.ok a => Except.ok a
  | Except.error m => Except.error (f m)

/-- Backend invocation, `execute_python_command` (python.rs lines 212-298):
resolve the interpreter (propagating `InterpreterNotFound` with the
`Python not found:` prefix and spawning nothing), otherwise spawn the
backend once and classify by exit status alone — exit code 0 yields the
full stdout text, any other exit code yields a failure built from the
stderr text. -/
def executePythonCommand (e : PyEnv) (args : List String) :
    Except String String × List PyEvent :=
  match getPythonPath e with
  | (Except.error m, t) => (Except.error ("Python not found: " ++ m), t)
  | (Except.ok p, t) =>
    (if (e.run p args).1 = 0 then Except.ok (e.run p args).2.1
     else Except.error ("Python command failed: " ++ (e.run p args).2.2),
     t ++ [PyEvent.spawn p args])

/-- Accumulating splitter behind `rustLines`: split at newline characters,
removing a carriage return that immediately precedes a newline. -/
def splitNl (acc : List Char) : List Char → List (List Char)
  | [] => [acc.reverse]
  | '\n' :: rest =>
    (match acc with
     | '\r' :: a => a.reverse
     | a => a.reverse) :: splitNl [] rest
  | c :: rest => splitNl (c :: acc) rest

/-- Model of Rust's `str::lines`: split at newlines (a carriage return
immediately before a newline is removed with it), with no trailing empty
line produced after a final line terminator. -/
def rustLines (s : String) : List String :=
  let parts := splitNl [] s.data
  let kept := if parts.getLast? = some [] then parts.dropLast else parts
  kept.map String.mk

/-- A trimmed line is a decode candidate when its first character is an
opening curly brace or an opening square bracket (python.rs line 311). -/
def isJsonCandidate (t : String) : Bool :=
  match t.data with
  | [] => false
  | c :: _ => c = '\x7b' || c = '['

/-- Decode attempt for one stdout line, as in the loop body of
`execute_python_json_command`: trim the line, attempt the decode only on a
candidate line, and treat a failed decode the same as a non-candidate. -/
def candDecode {T : Type} (decode : String → Option T) (line : String) :
    Option T :=
  if isJsonCandidate (rustTrim line) then decode (rustTrim line) else none

/-- Line scan of `execute_python_json_command`: the first line whose decode
attempt succeeds wins and all remaining lines are ignored. -/
def scanJsonLines {T : Type} (decode : String → Option T) :
    List String → Option T
  | [] => none
  | l :: ls =>
    match candDecode decode l with
    | some v => some v
    | none => scanJsonLines decode ls

/-- JSON-producing backend invocation, `execute_python_json_command`
(python.rs lines 301-323), generic over the payload decoder exactly as the
Rust function is generic over `T: Deserialize`: execution failures
propagate unchanged; on success the stdout lines are scanned and if no line
decodes the call fails with a message carrying the full original text. -/
def executePythonJsonCommand {T : Type} (decode : String → Option T)
    (e : PyEnv) (args : List String) : Except String T × List PyEvent :=
  match executePythonCommand e args with
  | (Except.error m, t) => (Except.error m, t)
  | (Except.ok out, t) =>
    (match scanJsonLines decode (rustLines out) with
     | some v => Except.ok v
     | none => Except.error ("No valid JSON found in Python output: " ++ out),
     t)

/-- Full `create_project` command (commands.rs lines 108-164): the argument
vector is built first, then `execute_python_command` runs; failures gain
the `Failed to create project:` prefix. -/
def createProject (e : PyEnv) (d : ProjectData) :
    Except String String × List PyEvent :=
  let args := createProjectArgs d
  (mapErr (fun m => "Failed to create project: " ++ m)
     (executePythonCommand e args).1,
   PyEvent.built args :: (executePythonCommand e args).2)

/-- Full `export_project` command (commands.rs lines 593-608): the argument
vector `[export, csv, <id>]` is built first — the requested format never
appears in it — and any format other than `csv` is rejected before
`execute_python_command` can run. -/
def exportProject (e : PyEnv) (projectId : Nat) (fmt : String) :
    Except String String × List PyEvent :=
  let args := ["export", "csv", Nat.repr projectId]
  if fmt ≠ "csv" then
    (Except.error "Only CSV export is currently supported", [PyEvent.built args])
  else
    (mapErr (fun m => "Failed to export project " ++ Nat.repr projectId ++ ": " ++ m)
       (executePythonCommand e args).1,
     PyEvent.built args :: (executePythonCommand e args).2)

/-- Candidate list in the order asserted by claim C2, which puts the
bundled path of the current OS family before the other family's: each entry
is (candidate, exists-and-may-be-probed, probe-verifies). Written from the
claim's words, to be compared with `getPythonPath`. -/
def specCandidates (osWindows : Bool) (e : PyEnv) :
    List (String × Bool × Bool) :=
  (if osWindows then
    [(winVenvPath e, e.winVenvExists, e.winVenvVerifies),
     (unixVenvPath e, e.unixVenvExists, e.unixVenvVerifies)]
   else
    [(unixVenvPath e, e.unixVenvExists, e.unixVenvVerifies),
     (winVenvPath e, e.winVenvExists, e.winVenvVerifies)])
  ++ [("python", true, e.sysVerifies "python"),
      ("python3", true, e.sysVerifies "python3"),
      ("py", true, e.sysVerifies "py")]

/-- First verifying candidate of a candidate list, as the claim describes
resolution. -/
def specResolveList : List (String × Bool × Bool) → Except String String
  | [] => Except.error "Python not found in PATH or virtual environment"
  | (p, ex, ok) :: rest =>
    if ex && ok then Except.ok p else specResolveList rest

/-- Resolution as claim C2 states it (current OS family's bundled path
first). Written from the claim's words, to be compared with
`getPythonPath`. -/
def specPythonResolve (osWindows : Bool) (e : PyEnv) : Except String String :=
  specResolveList (specCandidates osWindows e)

/-- Backend-run oracle returning a silent success; used where the claim at
hand does not inspect the backend outcome. -/
def runNothing : String → List String → Nat × String × String :=
  fun _ _ => (0, "", "")

/-- Environment in which both bundled interpreters exist and verify and no
system name verifies. -/
def envBothBundled : PyEnv :=
  ⟨".", true, true, true, true, fun _ => false, runNothing⟩

/-- Environment in which no candidate whatsoever verifies. -/
def envNoInterp : PyEnv :=
  ⟨".", false, false, false, false, fun _ => false, runNothing⟩

/-- Environment in which only the Unix-style bundled interpreter exists
(and verifies). -/
def envUnixOnly : PyEnv :=
  ⟨".", false, false, true, true, fun _ => false, runNothing⟩

/-- Well-formed structured stdout used to show that stdout content never
overrides exit-status classification. -/
def jsonStdout : String :=
  "\x7b\"ok\":true\x7d"

/-- Environment whose backend run exits with status 1, stdout holding
well-formed structured content and stderr `boom`. -/
def envExit1 : PyEnv :=
  ⟨".", true, true, false, false, fun _ => false, fun _ _ => (1, jsonStdout, "boom")⟩

/-- Environment identical to `envExit1` except that the backend exits with
status 2. -/
def envExit2 : PyEnv :=
  ⟨".", true, true, false, false, fun _ => false, fun _ _ => (2, jsonStdout, "boom")⟩

/-- The stdout text of the C3 scenario: a JSON object line surrounded by
free-form text lines. -/
def c3Stdout : String :=
  "Loaded 3 records\n\x7b\"id\":7,\"name\":\"Kitchen\"\x7d\nDone"

/-- Environment whose backend run succeeds with the C3 scenario stdout. -/
def envC3 : PyEnv :=
  ⟨".", true, true, false, false, fun _ => false, fun _ _ => (0, c3Stdout, "")⟩

/-- Stdout with no line starting with a curly brace or square bracket. -/
def c4Stdout : String :=
  "Loaded 3 records\nDone"

/-- Environment whose backend run succeeds with the C4 scenario stdout. -/
def envC4 : PyEnv :=
  ⟨".", true, true, false, false, fun _ => false, fun _ _ => (0, c4Stdout, "")⟩

/-- The C5 scenario request: name Lakehouse, budget 250000.0, type flip,
class residential, two floors, no description, square footage or address. -/
def dLakehouse : ProjectData :=
  ⟨"Lakehouse", 250000, "flip", "residential", none, some 2, none, none⟩

/-- Update request carrying both a budget and a description and nothing
else. -/
def dBudgetDesc : UpdateProjectData :=
  ⟨none, some 1, some "x", none, none, none⟩

/-- Expense request whose hours equal the no-op sentinel 0.0 and whose
notes are blank after trimming. -/
def dExpenseOmit : ExpenseData :=
  ⟨"Living Room", "material", 100, some 0, some 3, some "  "⟩

theorem scanJsonLines_append_none {T : Type} (decode : String → Option T)
    (pre ls : List String) (h : ∀ m ∈ pre, candDecode decode m = none) :
    scanJsonLines decode (pre ++ ls) = scanJsonLines decode ls := by
  induction pre with
  | nil => rfl
  | cons a l ih =>
    have ha : candDecode decode a = none := h a (List.mem_cons_self a l)
    simp only [List.cons_append, scanJsonLines, ha]
    exact ih (fun m hm => h m (List.mem_cons_of_mem a hm))

theorem scanJsonLines_eq_none {T : Type} (decode : String → Option T)
    (ls : List String) (h : ∀ m ∈ ls, candDecode decode m = none) :
    scanJsonLines decode ls = none := by
  induction ls with
  | nil => rfl
  | cons a l ih =>
    have ha : candDecode decode a = none := h a (List.mem_cons_self a l)
    simp only [scanJsonLines, ha]
    exact ih (fun m hm => h m (List.mem_cons_of_mem a hm))

theorem sysScan_no_spawn (e : PyEnv) (ns : List String) :
    ∀ ev ∈ (sysScan e ns).2, ev.isSpawn = false := by
  induction ns with
  | nil => intro ev hev; simp [sysScan] at hev
  | cons n l ih =>
    intro ev hev
    by_cases h : e.sysVerifies n = true
    · simp [sysScan, h] at hev
      simp [hev, PyEvent.isSpawn]
    · simp [sysScan, h] at hev
      rcases hev with hev | hev
      · simp [hev, PyEvent.isSpawn]
      · exact ih ev hev

theorem winProbes_no_spawn (e : PyEnv) :
    ∀ ev ∈ winProbes e, ev.isSpawn = false := by
  intro ev hev
  cases hw : e.winVenvExists <;> simp [winProbes, hw] at hev
  simp [hev, PyEvent.isSpawn]

theorem unixProbes_no_spawn (e : PyEnv) :
    ∀ ev ∈ unixProbes e, ev.isSpawn = false := by
  intro ev hev
  cases hu : e.unixVenvExists <;> simp [unixProbes, hu] at hev
  simp [hev, PyEvent.isSpawn]

theorem getPythonPath_no_spawn (e : PyEnv) :
    ∀ ev ∈ (getPythonPath e).2, ev.isSpawn = false := by
  intro ev hev
  unfold getPythonPath at hev
  by_cases h1 : (e.winVenvExists && e.winVenvVerifies) = true
  · rw [if_pos h1] at hev
    exact winProbes_no_spawn e ev hev
  · rw [if_neg h1] at hev
    by_cases h2 : (e.unixVenvExists && e.unixVenvVerifies) = true
    · rw [if_pos h2] at hev
      rcases List.mem_append.mp hev with h | h
      · exact winProbes_no_spawn e ev h
      · exact unixProbes_no_spawn e ev h
    · rw [if_neg h2] at hev
      rcases List.mem_append.mp hev with h | h
      · rcases List.mem_append.mp h with h | h
        · exact winProbes_no_spawn e ev h
        · exact unixProbes_no_spawn e ev h
      · exact sysScan_no_spawn e sysPythonNames ev h

theorem getPythonPath_fail (e : PyEnv)
    (h1 : (e.winVenvExists && e.winVenvVerifies) = false)
    (h2 : (e.unixVenvExists && e.unixVenvVerifies) = false)
    (h3 : e.sysVerifies "python" = false)
    (h4 : e.sysVerifies "python3" = false)
    (h5 : e.sysVerifies "py" = false) :
    getPythonPath e =
      (Except.error "Python not found in PATH or virtual environment",
       winProbes e ++ unixProbes e ++
         [PyEvent.probe "python", PyEvent.probe "python3", PyEvent.probe "py"]) := by
  simp [getPythonPath, sysScan, sysPythonNames, h1, h2, h3, h4, h5]

/-- C1 (amended): `execute_python_command` succeeds with the full stdout
text exactly when the backend subprocess exits with status 0; on any
nonzero exit status it fails with a message built from the stderr text
alone.  The exit status is logged but is not part of the returned failure
value (see the counterexample theorem). -/
theorem c1_exit_status_classification (e : PyEnv) (args : List String)
    (p : String) (t : List PyEvent) (code : Nat) (out err : String)
    (hp : getPythonPath e = (Except.ok p, t))
    (hr : e.run p args = (code, out, err)) :
    ((executePythonCommand e args).1 = Except.ok out ↔ code = 0) ∧
    (code ≠ 0 →
      (executePythonCommand e args).1 =
        Except.error ("Python command failed: " ++ err)) := by
  by_cases hc : code = 0 <;>
    simp [executePythonCommand, hp, hr, hc]

/-- C1 witness: with a backend run that exits with status 1, stdout that is
well-formed structured content, and stderr `boom`, the call fails with the
stderr-derived message and does not succeed. -/
theorem c1_exit_status_classification_witness :
    ((executePythonCommand envExit1 ["project", "list"]).1 =
        Except.ok jsonStdout ↔ (1 : Nat) = 0) ∧
    ((1 : Nat) ≠ 0 →
      (executePythonCommand envExit1 ["project", "list"]).1 =
        Except.error "Python command failed: boom") :=
  c1_exit_status_classification envExit1 ["project", "list"]
    (winVenvPath envExit1) [PyEvent.probe (winVenvPath envExit1)]
    1 jsonStdout "boom" rfl rfl

/-- C1 counterexample: two environments whose backend runs differ only in
the exit status (1 versus 2) with the same stderr produce identical failure
results, so the returned failure cannot carry the exit code, contrary to
the claim's wording. -/
theorem c1_no_exit_code_in_failure :
    executePythonCommand envExit1 ["project", "list"] =
      executePythonCommand envExit2 ["project", "list"] ∧
    (envExit1.run (winVenvPath envExit1) ["project", "list"]).1 = 1 ∧
    (envExit2.run (winVenvPath envExit2) ["project", "list"]).1 = 2 ∧
    (executePythonCommand envExit1 ["project", "list"]).1 =
      Except.error "Python command failed: boom" :=
  ⟨rfl, rfl, rfl, rfl⟩

/-- C2 (amended): `get_python_path` examines candidates in the fixed order
Windows-style bundled path, Unix-style bundled path, then the system names
python, python3, py — regardless of the host OS family — probing a bundled
candidate only when it exists, returning the first candidate that
verifies, and probing no candidate after the returned one (the trace lists
every verification subprocess spawned). -/
theorem c2_fixed_resolution_order (e : PyEnv) :
    ((e.winVenvExists && e.winVenvVerifies) = true →
      getPythonPath e =
        (Except.ok (winVenvPath e), [PyEvent.probe (winVenvPath e)])) ∧
    ((e.winVenvExists && e.winVenvVerifies) = false →
     (e.unixVenvExists && e.unixVenvVerifies) = true →
      getPythonPath e =
        (Except.ok (unixVenvPath e),
         winProbes e ++ [PyEvent.probe (unixVenvPath e)])) ∧
    ((e.winVenvExists && e.winVenvVerifies) = false →
     (e.unixVenvExists && e.unixVenvVerifies) = false →
     e.sysVerifies "python" = true →
      getPythonPath e =
        (Except.ok "python",
         winProbes e ++ unixProbes e ++ [PyEvent.probe "python"])) ∧
    ((e.winVenvExists && e.winVenvVerifies) = false →
     (e.unixVenvExists && e.unixVenvVerifies) = false →
     e.sysVerifies "python" = false → e.sysVerifies "python3" = true →
      getPythonPath e =
        (Except.ok "python3",
         winProbes e ++ unixProbes e ++
           [PyEvent.probe "python", PyEvent.probe "python3"])) ∧
    ((e.winVenvExists && e.winVenvVerifies) = false →
     (e.unixVenvExists && e.unixVenvVerifies) = false →
     e.sysVerifies "python" = false → e.sysVerifies "python3" = false →
     e.sysVerifies "py" = true →
      getPythonPath e =
        (Except.ok "py",
         winProbes e ++ unixProbes e ++
           [PyEvent.probe "python", PyEvent.probe "python3", PyEvent.probe "py"])) ∧
    ((e.winVenvExists && e.winVenvVerifies) = false →
     (e.unixVenvExists && e.unixVenvVerifies) = false →
     e.sysVerifies "python" = false → e.sysVerifies "python3" = false →
     e.sysVerifies "py" = false →
      getPythonPath e =
        (Except.error "Python not found in PATH or virtual environment",
         winProbes e ++ unixProbes e ++
           [PyEvent.probe "python", PyEvent.probe "python3", PyEvent.probe "py"])) := by
  refine ⟨?_, ?_, ?_, ?_, ?_, ?_⟩
  · intro h1
    have hx := (Bool.and_eq_true _ _).mp h1
    simp [getPythonPath, winProbes, h1, hx.1, hx.2]
  · intro h1 h2
    have hx := (Bool.and_eq_true _ _).mp h2
    simp [getPythonPath, unixProbes, h1, h2, hx.1, hx.2]
  · intro h1 h2 h3
    simp [getPythonPath, sysScan, sysPythonNames, h1, h2, h3]
  · intro h1 h2 h3 h4
    simp [getPythonPath, sysScan, sysPythonNames, h1, h2, h3, h4]
  · intro h1 h2 h3 h4 h5
    simp [getPythonPath, sysScan, sysPythonNames, h1, h2, h3, h4, h5]
  · intro h1 h2 h3 h4 h5
    exact getPythonPath_fail e h1 h2 h3 h4 h5

/-- C2 witness: the claim's scenario — only the Unix-style bundled runtime
exists and verifies — resolves to that candidate with a single probe, so
no system-named executable is probed. -/
theorem c2_fixed_resolution_order_witness :
    ((envUnixOnly.winVenvExists && envUnixOnly.winVenvVerifies) = false) ∧
    ((envUnixOnly.unixVenvExists && envUnixOnly.unixVenvVerifies) = true) ∧
    getPythonPath envUnixOnly =
      (Except.ok (unixVenvPath envUnixOnly),
       [PyEvent.probe (unixVenvPath envUnixOnly)]) :=
  ⟨rfl, rfl, (c2_fixed_resolution_order envUnixOnly).2.1 rfl rfl⟩

/-- C2 counterexample: with both bundled runtimes present and verifying on
a host whose OS family is Unix, the order the claim states (current OS
family first) would return the Unix-style path, but `get_python_path`
returns the Windows-style path: the priority order is fixed and does not
depend on the current OS family. -/
theorem c2_os_order_counterexample :
    specPythonResolve false envBothBundled =
      Except.ok (unixVenvPath envBothBundled) ∧
    (getPythonPath envBothBundled).1 =
      Except.ok (winVenvPath envBothBundled) ∧
    winVenvPath envBothBundled ≠ unixVenvPath envBothBundled :=
  ⟨rfl, rfl, by decide⟩

/-- C3: when the backend run succeeds, `execute_python_json_command` splits
stdout into lines, treats a trimmed line as a decode candidate exactly when
it starts with an opening curly brace or square bracket, and returns the
decoded value of the first candidate line that decodes successfully,
ignoring all remaining lines; earlier lines that are not candidates or fail
to decode are skipped, not fatal. -/
theorem c3_first_decodable_line {T : Type} (decode : String → Option T)
    (e : PyEnv) (args : List String) (p : String) (t : List PyEvent)
    (out err : String) (pre post : List String) (l : String) (v : T)
    (hp : getPythonPath e = (Except.ok p, t))
    (hr : e.run p args = (0, out, err))
    (hsplit : rustLines out = pre ++ l :: post)
    (hpre : ∀ m ∈ pre, candDecode decode m = none)
    (hl : candDecode decode l = some v) :
    (executePythonJsonCommand decode e args).1 = Except.ok v := by
  have hexec : executePythonCommand e args =
      (Except.ok out, t ++ [PyEvent.spawn p args]) := by
    simp [executePythonCommand, hp, hr]
  simp [executePythonJsonCommand, hexec, hsplit,
    scanJsonLines_append_none decode pre (l :: post) hpre, scanJsonLines, hl]

/-- C3 witness: for stdout `Loaded 3 records`, then the object line with id
7 and name Kitchen, then `Done`, the call returns the decoded object and
ignores the surrounding lines. -/
theorem c3_first_decodable_line_witness :
    (executePythonJsonCommand Json.parse envC3 ["room", "list"]).1 =
      Except.ok (Json.obj [("id", Json.num 7), ("name", Json.str "Kitchen")]) :=
  c3_first_decodable_line Json.parse envC3 ["room", "list"]
    (winVenvPath envC3) [PyEvent.probe (winVenvPath envC3)] c3Stdout ""
    ["Loaded 3 records"] ["Done"] "\x7b\"id\":7,\"name\":\"Kitchen\"\x7d"
    (Json.obj [("id", Json.num 7), ("name", Json.str "Kitchen")])
    rfl rfl (by decide)
    (by
      intro m hm
      have h := List.mem_singleton.mp hm
      subst h
      rfl)
    rfl

/-- C4: when the backend run succeeds but no stdout line decodes (in
particular when no trimmed line starts with an opening curly brace or
square bracket), `execute_python_json_command` fails with the parse-failure
message carrying the exact full original stdout text, and never substitutes
a default value. -/
theorem c4_parse_failure_carries_text {T : Type} (decode : String → Option T)
    (e : PyEnv) (args : List String) (p : String) (t : List PyEvent)
    (out err : String)
    (hp : getPythonPath e = (Except.ok p, t))
    (hr : e.run p args = (0, out, err))
    (h : ∀ m ∈ rustLines out, candDecode decode m = none) :
    (executePythonJsonCommand decode e args).1 =
      Except.error ("No valid JSON found in Python output: " ++ out) := by
  have hexec : executePythonCommand e args =
      (Except.ok out, t ++ [PyEvent.spawn p args]) := by
    simp [executePythonCommand, hp, hr]
  simp [executePythonJsonCommand, hexec,
    scanJsonLines_eq_none decode (rustLines out) h]

/-- C4 witness: for stdout with no line starting with a curly brace or a
square bracket, the call fails with the message carrying that exact text. -/
theorem c4_parse_failure_carries_text_witness :
    (executePythonJsonCommand Json.parse envC4 ["room", "list"]).1 =
      Except.error ("No valid JSON found in Python output: " ++ c4Stdout) :=
  c4_parse_failure_carries_text Json.parse envC4 ["room", "list"]
    (winVenvPath envC4) [PyEvent.probe (winVenvPath envC4)] c4Stdout ""
    rfl rfl
    (by
      intro m hm
      rw [show rustLines c4Stdout = ["Loaded 3 records", "Done"] from by decide] at hm
      rcases List.mem_cons.mp hm with h | h
      · subst h; rfl
      · have h2 := List.mem_singleton.mp h
        subst h2; rfl)

/-- C5: the create request named Lakehouse with budget 250000.0, type flip,
class residential and two floors builds exactly the claimed argument
vector; in particular the budget is rendered as `250000`, with no
fractional part and no grouping separators. -/
theorem c5_create_project_argv :
    createProjectArgs dLakehouse =
      ["project", "create", "Lakehouse", "250000", "flip", "residential",
       "--floors", "2"] := by
  decide

/-- C6 (amended): the optional flag/value pairs of `update_project` appear
in the fixed order name, description, budget, floors, sqft, address — the
order the source pushes them, not the order the fields are declared — with
each pair emitted exactly when its field is present. -/
theorem c6_update_flag_order (projectId : Nat) (d : UpdateProjectData) :
    isSubseqOf (emittedFlags ((updateProjectArgs projectId d).drop 3))
      ["--name", "--description", "--budget", "--floors", "--sqft",
       "--address"] = true ∧
    ("--name" ∈ emittedFlags ((updateProjectArgs projectId d).drop 3) ↔
      d.name.isSome = true) ∧
    ("--description" ∈ emittedFlags ((updateProjectArgs projectId d).drop 3) ↔
      d.description.isSome = true) ∧
    ("--budget" ∈ emittedFlags ((updateProjectArgs projectId d).drop 3) ↔
      d.budget.isSome = true) ∧
    ("--floors" ∈ emittedFlags ((updateProjectArgs projectId d).drop 3) ↔
      d.floors.isSome = true) ∧
    ("--sqft" ∈ emittedFlags ((updateProjectArgs projectId d).drop 3) ↔
      d.sqft.isSome = true) ∧
    ("--address" ∈ emittedFlags ((updateProjectArgs projectId d).drop 3) ↔
      d.address.isSome = true) := by
  obtain ⟨n, b, ds, f, q, a⟩ := d
  cases n <;> cases b <;> cases ds <;> cases f <;> cases q <;> cases a <;>
    simp [updateProjectArgs, emittedFlags, isSubseqOf]

/-- C6 counterexample: with both budget and description present, the
`--description` pair precedes the `--budget` pair, contrary to the claimed
declared-field order (name, budget, description, ...). -/
theorem c6_description_before_budget :
    updateProjectArgs 5 dBudgetDesc =
      ["project", "update", "5", "--description", "x", "--budget", "1"] ∧
    (updateProjectArgs 5 dBudgetDesc)[3]? = some "--description" ∧
    (updateProjectArgs 5 dBudgetDesc)[5]? = some "--budget" := by
  refine ⟨by decide, by decide, by decide⟩

/-- C7: `add_expense` never emits an `--hours` pair when hours is absent or
not strictly positive (0.0 is the no-op sentinel), and never emits a
`--notes` pair when notes is absent or blank after trimming.  The flags are
read off the optional section of the argument vector (the tokens after the
six positionals) at pair boundaries. -/
theorem c7_expense_sentinel_omission (projectId : Nat) (d : ExpenseData) :
    ((∀ h, d.hours = some h → h ≤ 0) →
      "--hours" ∉ emittedFlags ((addExpenseArgs projectId d).drop 6)) ∧
    ((∀ s, d.notes = some s → rustTrim s = "") →
      "--notes" ∉ emittedFlags ((addExpenseArgs projectId d).drop 6)) := by
  obtain ⟨rn, cat, co, hrs, cond, nts⟩ := d
  constructor
  · intro hh
    have hrs0 : (match hrs with
        | some h => if 0 < h then ["--hours", rustF64Display h] else []
        | none => ([] : List String)) = [] := by
      cases hrs with
      | none => rfl
      | some h =>
        have : ¬(0 < h) := not_lt.mpr (hh h rfl)
        simp [this]
    cases nts with
    | none => cases cond <;> simp [addExpenseArgs, hrs0, emittedFlags]
    | some s =>
      by_cases ht : rustTrim s = "" <;> cases cond <;>
        simp [addExpenseArgs, hrs0, ht, emittedFlags]
  · intro hn
    have nts0 : (match nts with
        | some s => if rustTrim s = "" then [] else ["--notes", s]
        | none => ([] : List String)) = [] := by
      cases nts with
      | none => rfl
      | some s => simp [hn s rfl]
    cases hrs with
    | none => cases cond <;> simp [addExpenseArgs, nts0, emittedFlags]
    | some h =>
      by_cases h0 : (0 : ℚ) < h <;> cases cond <;>
        simp [addExpenseArgs, nts0, h0, emittedFlags]

/-- C7 witness: an expense whose hours equal the sentinel 0.0 and whose
notes are two spaces emits neither an `--hours` pair nor a `--notes`
pair. -/
theorem c7_expense_sentinel_omission_witness :
    ((0 : ℚ) ≤ 0) ∧ (rustTrim "  " = "") ∧
    "--hours" ∉ emittedFlags ((addExpenseArgs 1 dExpenseOmit).drop 6) ∧
    "--notes" ∉ emittedFlags ((addExpenseArgs 1 dExpenseOmit).drop 6) :=
  ⟨by decide, by decide,
   (c7_expense_sentinel_omission 1 dExpenseOmit).1
     (by
       intro h hh
       rw [show dExpenseOmit.hours = some (0 : ℚ) from rfl] at hh
       injection hh with h2
       subst h2
       exact le_refl 0),
   (c7_expense_sentinel_omission 1 dExpenseOmit).2
     (by
       intro s hs
       rw [show dExpenseOmit.notes = some "  " from rfl] at hs
       injection hs with h2
       subst h2
       decide)⟩

/-- C8 (amended): when no interpreter candidate verifies, `create_project`
fails with the interpreter-not-found error and no backend subprocess is
ever spawned (every event of the call is the argument-vector construction
or a resolution probe).  The argument vector itself is built by the caller
before resolution runs, so that part of the claim does not hold (see the
counterexample theorem). -/
theorem c8_no_spawn_on_resolution_failure (e : PyEnv) (d : ProjectData)
    (h1 : (e.winVenvExists && e.winVenvVerifies) = false)
    (h2 : (e.unixVenvExists && e.unixVenvVerifies) = false)
    (h3 : e.sysVerifies "python" = false)
    (h4 : e.sysVerifies "python3" = false)
    (h5 : e.sysVerifies "py" = false) :
    (createProject e d).1 =
      Except.error
        "Failed to create project: Python not found: Python not found in PATH or virtual environment" ∧
    ∀ ev ∈ (createProject e d).2, ev.isSpawn = false := by
  have hgp := getPythonPath_fail e h1 h2 h3 h4 h5
  have hexec : executePythonCommand e (createProjectArgs d) =
      (Except.error
        ("Python not found: " ++ "Python not found in PATH or virtual environment"),
       winProbes e ++ unixProbes e ++
         [PyEvent.probe "python", PyEvent.probe "python3", PyEvent.probe "py"]) := by
    simp [executePythonCommand, hgp]
  constructor
  · simp [createProject, hexec, mapErr]
  · intro ev hev
    simp only [createProject, hexec, List.mem_cons] at hev
    rcases hev with hev | hev
    · simp [hev, PyEvent.isSpawn]
    · have hev2 : ev ∈ (getPythonPath e).2 := by
        rw [hgp]
        exact hev
      exact getPythonPath_no_spawn e ev hev2

/-- C8 witness: in the environment where nothing verifies, the create call
fails with the interpreter-not-found message and its trace holds no spawn
event. -/
theorem c8_no_spawn_on_resolution_failure_witness :
    ((envNoInterp.winVenvExists && envNoInterp.winVenvVerifies) = false) ∧
    ((envNoInterp.unixVenvExists && envNoInterp.unixVenvVerifies) = false) ∧
    (envNoInterp.sysVerifies "python" = false) ∧
    (createProject envNoInterp dLakehouse).1 =
      Except.error
        "Failed to create project: Python not found: Python not found in PATH or virtual environment" ∧
    ∀ ev ∈ (createProject envNoInterp dLakehouse).2, ev.isSpawn = false :=
  ⟨rfl, rfl, rfl,
   (c8_no_spawn_on_resolution_failure envNoInterp dLakehouse
      rfl rfl rfl rfl rfl).1,
   (c8_no_spawn_on_resolution_failure envNoInterp dLakehouse
      rfl rfl rfl rfl rfl).2⟩

/-- C8 counterexample: in the same failing environment the call's trace
does contain the built argument vector — `create_project` constructs its
argument vector before resolution is attempted, so the claim's "no
argument vector is built for the failed call" is false. -/
theorem c8_argv_built_counterexample :
    PyEvent.built (createProjectArgs dLakehouse) ∈
      (createProject envNoInterp dLakehouse).2 ∧
    (createProject envNoInterp dLakehouse).1 =
      Except.error
        "Failed to create project: Python not found: Python not found in PATH or virtual environment" :=
  ⟨by decide, rfl⟩

/-- C9: each of the three delete commands appends the literal `--force`
token as the final element of its argument vector for every identifier and
name, so backend-side deletion confirmation is always bypassed. -/
theorem c9_delete_always_force (projectId expenseId : Nat) (roomName : String) :
    (deleteProjectArgs projectId).getLast? = some "--force" ∧
    (deleteRoomArgs projectId roomName).getLast? = some "--force" ∧
    (deleteExpenseArgs expenseId).getLast? = some "--force" :=
  ⟨rfl, rfl, rfl⟩

/-- C10: `export_project` always builds the argument vector
`[export, csv, <id>]` — the requested format string never appears in it —
and for every format other than `csv` it fails with
`Only CSV export is currently supported` while its trace holds only the
built vector, so no backend subprocess is spawned. -/
theorem c10_export_csv_only (e : PyEnv) (projectId : Nat) (fmt : String) :
    (exportProject e projectId fmt).2.head? =
      some (PyEvent.built ["export", "csv", Nat.repr projectId]) ∧
    (fmt ≠ "csv" →
      exportProject e projectId fmt =
        (Except.error "Only CSV export is currently supported",
         [PyEvent.built ["export", "csv", Nat.repr projectId]])) := by
  by_cases h : fmt = "csv"
  · subst h
    exact ⟨rfl, fun hne => absurd rfl hne⟩
  · refine ⟨?_, fun _ => ?_⟩ <;> simp [exportProject, h]

/-- C10 witness: requesting the `json` format fails with the fixed message
and a trace holding only the built `[export, csv, 7]` vector. -/
theorem c10_export_csv_only_witness :
    ("json" ≠ "csv") ∧
    exportProject envNoInterp 7 "json" =
      (Except.error "Only CSV export is currently supported",
       [PyEvent.built ["export", "csv", "7"]]) :=
  ⟨by decide, (c10_export_csv_only envNoInterp 7 "json").2 (by decide)⟩
